import Mathlib

/-!
Shallow embedding of the falling-3D-objects animation (`website/main_clean.js`,
`website/utils.js`, `website/config.js`, `modelLoader.js`) and proofs about it.

Modelling conventions:
* JavaScript numbers are embedded as exact rationals (`ℚ`); decimal literals of
  the configuration are written as fractions (0.8 = 4/5, 0.02 = 1/50, ...).
* `Math.round` is `round : ℚ → ℤ` (both are `⌊x + 1/2⌋`), `Math.ceil(a / b)` on
  integers is `⌈(a : ℚ) / b⌉`.
* Calls to `Math.random()` are derandomized: each draw becomes an explicit
  parameter (or stream of parameters) assumed to lie in `[0, 1)`, exactly the
  range of `Math.random`.
* The external three.js routines `computeVertexNormals` and
  `computeBoundingSphere` are library code, not part of this repository:
  `computeVertexNormals` is kept abstract as a function parameter `cvn`
  (only *when* it is invoked matters here), while `computeBoundingSphere`
  is modelled concretely (bounding-box centre plus maximal squared distance,
  the radius being kept squared to stay inside `ℚ`).
* Exceptions thrown by the merge step (caught in `modelLoader.js`, line 58)
  are modelled by an explicit `mergeFails` flag selecting the catch branch.
-/

namespace Falling3D

/-! ### Configuration (`website/config.js`) -/

/-- `OBJECT_CONFIG` of `config.js`: density, spreads, offset and scale range. -/
structure ObjectConfig where
  targetDensity : ℚ
  xSpread : ℚ
  ySpread : ℚ
  zSpread : ℚ
  yOffset : ℚ
  minScale : ℚ
  maxScale : ℚ
  deriving DecidableEq, Repr

/-- `ANIMATION_CONFIG` of `config.js`: fall speed and rotation parameters. -/
structure AnimationConfig where
  fallSpeed : ℚ
  maxRotationSpeed : ℚ
  rotationMultiplier : ℚ
  deriving DecidableEq, Repr

/-- The `OBJECT_CONFIG` values of `config.js`
(TARGET_DENSITY 4, X_SPREAD 200, Y_SPREAD 600, Z_SPREAD 100, Y_OFFSET 0,
MIN_SCALE 0.02, MAX_SCALE 0.1). -/
def objectConfig : ObjectConfig :=
  { targetDensity := 4
    xSpread := 200
    ySpread := 600
    zSpread := 100
    yOffset := 0
    minScale := 1/50
    maxScale := 1/10 }

/-- The `ANIMATION_CONFIG` values of `config.js`
(FALL_SPEED 0.8, MAX_ROTATION_SPEED 0.5, ROTATION_MULTIPLIER 0.02). -/
def animationConfig : AnimationConfig :=
  { fallSpeed := 4/5
    maxRotationSpeed := 1/2
    rotationMultiplier := 1/50 }

/-! ### Object-count calculation (`utils.js`, `calculateObjectCount`) -/

/-- Embeds `calculateObjectCount` of `utils.js`:
`volume = X_SPREAD * Y_SPREAD * Z_SPREAD`,
`densityPerCubicUnit = TARGET_DENSITY / 1000000`,
returns `Math.round(volume * densityPerCubicUnit)`.
(The function also logs to the console; logging is ignored here.) -/
def calculateObjectCount (cfg : ObjectConfig) : ℤ :=
  let volume := cfg.xSpread * cfg.ySpread * cfg.zSpread
  let densityPerCubicUnit := cfg.targetDensity / 1000000
  round (volume * densityPerCubicUnit)

/-! ### Instance-pool partition (`main_clean.js`, `initializeScene`, lines 108-146)

The source computes `objectsPerModel = Math.ceil(OBJECT_COUNT / loadedModels.length)`,
then iterates the loaded models in order keeping a running `totalObjectsCreated`;
each model receives `objectsForThisModel = Math.min(objectsPerModel,
OBJECT_COUNT - totalObjectsCreated)`; a model with `objectsForThisModel <= 0`
is skipped (`return` inside the `forEach` callback, no batch pushed), otherwise
a batch with that count is pushed and the running total advances. -/

/-- The `forEach` body of `initializeScene` (lines 113-146): walks the loaded
models with running total `total`, yielding the object count of each batch
actually pushed onto `instancedMeshes`. -/
def assignLoop {α : Type} (per n : ℤ) : List α → ℤ → List ℤ
  | [], _ => []
  | _ :: ms, total =>
    let c := min per (n - total)
    if c ≤ 0 then assignLoop per n ms total
    else c :: assignLoop per n ms (total + c)

/-- The batch object counts produced by `initializeScene` for target count `n`
and loaded-model list `models`: `objectsPerModel = Math.ceil(n / models.length)`
and the loop above starting from `totalObjectsCreated = 0`. -/
def batchCounts {α : Type} (n : ℤ) (models : List α) : List ℤ :=
  assignLoop ⌈(n : ℚ) / (models.length : ℚ)⌉ n models 0

/-! ### Per-object state and the per-frame update (`main_clean.js`, lines 152-248) -/

/-- The `objectState` record built in `initializeScene` (lines 154-170):
position, Euler rotation, uniform scale, the two per-object rotation speeds,
and the owning batch (`meshIndex`) and slot (`instanceIndex`). -/
structure ObjectState where
  meshIndex : ℕ
  instanceIndex : ℕ
  posX : ℚ
  posY : ℚ
  posZ : ℚ
  rotX : ℚ
  rotY : ℚ
  rotZ : ℚ
  scale : ℚ
  rotationSpeedX : ℚ
  rotationSpeedZ : ℚ
  deriving DecidableEq, Repr

/-- The recycle threshold computed in `animate` (line 228):
`Y_OFFSET - Y_SPREAD / 2 - 10`. -/
def recycleThreshold (oc : ObjectConfig) : ℚ :=
  oc.yOffset - oc.ySpread / 2 - 10

/-- The body of the `allObjects.forEach` loop in `animate` (lines 219-233):
fall by `FALL_SPEED`, advance `rotation.x`/`rotation.z` by the per-object
speeds times `ROTATION_MULTIPLIER`, then, if `position.y` dropped strictly
below the recycle threshold, respawn at `Y_OFFSET + Y_SPREAD / 2` with
`x`/`z` redrawn as `(random - 0.5) * SPREAD`.  The two `Math.random()` draws
of the recycle branch are the explicit parameters `rx`, `rz`.  (The
subsequent matrix write, lines 236-242, only pushes the updated state into the
instance buffer and touches no object state.) -/
def updateObject (oc : ObjectConfig) (ac : AnimationConfig) (rx rz : ℚ)
    (obj : ObjectState) : ObjectState :=
  let afterFall : ObjectState :=
    { obj with
      posY := obj.posY - ac.fallSpeed
      rotX := obj.rotX + obj.rotationSpeedX * ac.rotationMultiplier
      rotZ := obj.rotZ + obj.rotationSpeedZ * ac.rotationMultiplier }
  if afterFall.posY < recycleThreshold oc then
    { afterFall with
      posY := oc.yOffset + oc.ySpread / 2
      posX := (rx - 1/2) * oc.xSpread
      posZ := (rz - 1/2) * oc.zSpread }
  else
    afterFall

/-- Iterated per-frame update of a single object; `rnd j` supplies the two
random draws the object would consume if it recycled in frame `j`. -/
def stepN (oc : ObjectConfig) (ac : AnimationConfig)
    (rnd : ℕ → ℚ × ℚ) : ℕ → ObjectState → ObjectState
  | 0, obj => obj
  | k + 1, obj =>
    stepN oc ac (fun j => rnd (j + 1)) k
      (updateObject oc ac (rnd 0).1 (rnd 0).2 obj)

/-- One frame of the `allObjects.forEach` loop over the whole object list;
`rnd i` supplies the random draws for the object at position `i`. -/
def animateList (oc : ObjectConfig) (ac : AnimationConfig)
    (rnd : ℕ → ℚ × ℚ) : List ObjectState → List ObjectState
  | [] => []
  | o :: os =>
    updateObject oc ac (rnd 0).1 (rnd 0).2 o ::
      animateList oc ac (fun j => rnd (j + 1)) os

/-- The mutable per-frame scene state: the flat `allObjects` list and the
per-batch `colorArray`s (written once at initialization, lines 180-193, and
never touched by `animate`). -/
structure SceneState where
  allObjects : List ObjectState
  colorArrays : List (List ℚ)
  deriving DecidableEq, Repr

/-- One execution of the per-frame update of `animate` (lines 219-248) on the
scene state: every object is updated once; the color arrays are not written. -/
def animateFrame (oc : ObjectConfig) (ac : AnimationConfig)
    (rnd : ℕ → ℚ × ℚ) (s : SceneState) : SceneState :=
  { allObjects := animateList oc ac rnd s.allObjects
    colorArrays := s.colorArrays }

/-- `K` consecutive frames; `rnds k i` supplies the draws of frame `k` for the
object at position `i`. -/
def iterFrames (oc : ObjectConfig) (ac : AnimationConfig)
    (rnds : ℕ → ℕ → ℚ × ℚ) : ℕ → SceneState → SceneState
  | 0, s => s
  | k + 1, s =>
    iterFrames oc ac (fun i => rnds (i + 1)) k
      (animateFrame oc ac (rnds 0) s)

/-! ### Geometry model (`modelLoader.js`) -/

/-- A bounding sphere; the radius is stored squared so that the model stays in
`ℚ` (three.js stores `radius = sqrt(maxRadiusSq)`). -/
structure Sphere where
  centerX : ℚ
  centerY : ℚ
  centerZ : ℚ
  radiusSq : ℚ
  deriving DecidableEq, Repr

/-- A `THREE.BufferGeometry` as used by `modelLoader.js`: optional flat
`position` / `normal` / `uv` attribute arrays and an optional bounding
sphere. -/
structure BufferGeometry where
  position : Option (List ℚ)
  normal : Option (List ℚ)
  uv : Option (List ℚ)
  boundingSphere : Option Sphere
  deriving DecidableEq, Repr

/-- The geometry with no attributes (used only as an `Option.getD` default). -/
def emptyGeometry : BufferGeometry :=
  { position := none, normal := none, uv := none, boundingSphere := none }

/-- Groups a flat coordinate array into 3-component vectors (a trailing
fragment shorter than 3 is dropped). -/
def toVec3s : List ℚ → List (ℚ × ℚ × ℚ)
  | x :: y :: z :: rest => (x, y, z) :: toVec3s rest
  | _ => []

/-- Squared euclidean distance of two 3-vectors. -/
def sqDist (p q : ℚ × ℚ × ℚ) : ℚ :=
  (p.1 - q.1) ^ 2 + (p.2.1 - q.2.1) ^ 2 + (p.2.2 - q.2.2) ^ 2

/-- Number of vertices of a geometry: a third of the length of its flat
position array. -/
def vertexCount (g : BufferGeometry) : ℕ :=
  (g.position.getD []).length / 3

/-- Centre of the axis-aligned bounding box of the nonempty vertex list
`p :: rest` (componentwise midpoint of minima and maxima). -/
def bboxCenter (p : ℚ × ℚ × ℚ) (rest : List (ℚ × ℚ × ℚ)) : ℚ × ℚ × ℚ :=
  let lo := rest.foldr
    (fun q a => (min q.1 a.1, min q.2.1 a.2.1, min q.2.2 a.2.2)) p
  let hi := rest.foldr
    (fun q a => (max q.1 a.1, max q.2.1 a.2.1, max q.2.2 a.2.2)) p
  ((lo.1 + hi.1) / 2, (lo.2.1 + hi.2.1) / 2, (lo.2.2 + hi.2.2) / 2)

/-- Maximal squared distance from `c` to any of the points. -/
def maxSqDist (c : ℚ × ℚ × ℚ) (pts : List (ℚ × ℚ × ℚ)) : ℚ :=
  (pts.map (fun q => sqDist q c)).foldr max 0

/-- Modelled from the external library (three.js r128
`BufferGeometry.computeBoundingSphere`, called by `mergeGeometries` at
`modelLoader.js` line 139): the centre is the centre of the axis-aligned
bounding box of the vertices and the radius is the maximal distance from the
centre to a vertex (kept squared here). -/
def computeBoundingSphere (ps : List ℚ) : Option Sphere :=
  match toVec3s ps with
  | [] => none
  | p :: rest =>
    some
      { centerX := (bboxCenter p rest).1
        centerY := (bboxCenter p rest).2.1
        centerZ := (bboxCenter p rest).2.2
        radiusSq := maxSqDist (bboxCenter p rest) (p :: rest) }

/-- Embeds `mergeGeometries` of `modelLoader.js` (lines 101-141): concatenate
the `position` / `normal` / `uv` arrays of those input geometries that carry
them; set the concatenated positions; set the concatenated normals when the
accumulated normal array is nonempty, otherwise compute normals from the
merged positions (`cvn` stands for the external
`BufferGeometry.computeVertexNormals`); set the concatenated UVs only when
nonempty; finally compute a bounding sphere. -/
def mergeGeometries (cvn : List ℚ → List ℚ)
    (geoms : List BufferGeometry) : BufferGeometry :=
  let positions := (geoms.filterMap (fun g => g.position)).flatten
  let normals := (geoms.filterMap (fun g => g.normal)).flatten
  let uvs := (geoms.filterMap (fun g => g.uv)).flatten
  { position := some positions
    normal := some (if normals.length > 0 then normals else cvn positions)
    uv := if uvs.length > 0 then some uvs else none
    boundingSphere := computeBoundingSphere positions }

/-- The single-mesh branch of `loadAllModels` (`modelLoader.js` lines 46-52):
clone the geometry and compute vertex normals on it only when it has no
normal attribute (`computeVertexNormals` reads the position attribute and
does nothing when it is absent). -/
def ensureNormals (cvn : List ℚ → List ℚ) (g : BufferGeometry) : BufferGeometry :=
  match g.normal with
  | some _ => g
  | none =>
    match g.position with
    | some ps => { g with normal := some (cvn ps) }
    | none => g

/-- The geometry-processing part of the `gltfLoader.load` success callback
(`modelLoader.js` lines 40-62): no geometries means the model resolves to
`null`; exactly one geometry is reused with normals ensured; several
geometries are merged, and when the merge throws (`mergeFails`) the first
sub-mesh is used as-is. -/
def processLoadedGeometries (cvn : List ℚ → List ℚ) (mergeFails : Bool)
    (geoms : List BufferGeometry) : Option BufferGeometry :=
  match geoms with
  | [] => none
  | [g] => some (ensureNormals cvn g)
  | g0 :: _ :: _ => if mergeFails then some g0 else some (mergeGeometries cvn geoms)

/-- Embeds `loadAllModels` of `modelLoader.js` (lines 18-93): each path is
loaded independently (`fetch p = none` models a load error, whose callback
resolves the promise with `null` instead of rejecting); the results are
joined and the `null`s filtered out, leaving exactly the successfully loaded
`(path, geometry)` pairs in path order. -/
def loadAllModels (cvn : List ℚ → List ℚ)
    (fetch : String → Option (List BufferGeometry))
    (mergeFails : String → Bool)
    (paths : List String) : List (String × BufferGeometry) :=
  paths.filterMap (fun p =>
    match fetch p with
    | none => none
    | some geoms =>
      (processLoadedGeometries cvn (mergeFails p) geoms).map (fun g => (p, g)))

/-- The entry guard plus batch construction of `initializeScene`
(`main_clean.js` lines 100-146): with zero loaded models it returns
immediately (no batch is built), otherwise it partitions the target count
over the models. -/
def initScene (n : ℤ) (models : List (String × BufferGeometry)) : List ℤ :=
  if models.length = 0 then [] else batchCounts n models

/-! ### Concrete sample data used by witnesses and counterexamples -/

/-- A sample object state (batch 0, slot 0, position (10, 100, 5)). -/
def obj0 : ObjectState :=
  { meshIndex := 0
    instanceIndex := 0
    posX := 10
    posY := 100
    posZ := 5
    rotX := 0
    rotY := 0
    rotZ := 0
    scale := 1/20
    rotationSpeedX := 1/10
    rotationSpeedZ := -1/10 }

/-- `obj0` placed at `y = -309`. -/
def obj309 : ObjectState := { obj0 with posY := -309 }

/-- `obj0` placed at `y = -311`. -/
def obj311 : ObjectState := { obj0 with posY := -311 }

/-- A sample scene holding `obj0` and one color array. -/
def scene0 : SceneState :=
  { allObjects := [obj0], colorArrays := [[1, 0, 0]] }

/-- A 3-vertex triangle geometry with position, normal and uv attributes. -/
def geomTri : BufferGeometry :=
  { position := some [0, 0, 0, 1, 0, 0, 0, 1, 0]
    normal := some [0, 0, 1, 0, 0, 1, 0, 0, 1]
    uv := some [0, 0, 1, 0, 0, 1]
    boundingSphere := none }

/-- A 4-vertex geometry with position, normal and uv attributes. -/
def geomQuad : BufferGeometry :=
  { position := some [2, 0, 0, 3, 0, 0, 3, 1, 0, 2, 1, 0]
    normal := some [0, 0, 1, 0, 0, 1, 0, 0, 1, 0, 0, 1]
    uv := some [0, 0, 1, 0, 1, 1, 0, 1]
    boundingSphere := none }

/-- A 3-vertex geometry with positions but no normal attribute. -/
def geomNoNormal : BufferGeometry :=
  { position := some [5, 0, 0, 6, 0, 0, 5, 1, 0]
    normal := none
    uv := none
    boundingSphere := none }

/-! ## Theorems -/

/-! ### C1 — object-count calculation -/

/-- C1: for every configuration, `calculateObjectCount` equals
`round (X_SPREAD * Y_SPREAD * Z_SPREAD * TARGET_DENSITY / 1000000)` (it is a
pure function of the configuration, hence deterministic), and on the
configured values X=200, Y=600, Z=100, density=4 it returns 48. -/
theorem calculateObjectCount_spec :
    (∀ cfg : ObjectConfig,
      calculateObjectCount cfg =
        round (cfg.xSpread * cfg.ySpread * cfg.zSpread * cfg.targetDensity / 1000000)) ∧
    calculateObjectCount objectConfig = 48 := by
  constructor
  · intro cfg
    unfold calculateObjectCount
    rw [mul_div_assoc]
  · unfold calculateObjectCount objectConfig
    rw [round_eq]
    norm_num

/-! ### C2 — instance-pool partition -/

/-- Running-sum lemma for the partition loop: starting from a total `t ≤ n`
with a nonnegative per-model quota, the loop hands out exactly
`min (t + len * per) n - t` objects. -/
theorem assignLoop_sum {α : Type} (per n : ℤ) (hper : 0 ≤ per) :
    ∀ (ms : List α) (t : ℤ), t ≤ n →
      (assignLoop per n ms t).sum = min (t + ms.length * per) n - t := by
  intro ms
  induction ms with
  | nil =>
    intro t ht
    simp only [assignLoop, List.sum_nil, List.length_nil, Nat.cast_zero, zero_mul, add_zero]
    omega
  | cons m ms ih =>
    intro t ht
    simp only [assignLoop, List.length_cons]
    have hmul : ((ms.length : ℤ) + 1) * per = (ms.length : ℤ) * per + per := by ring
    have hk : 0 ≤ (ms.length : ℤ) * per :=
      mul_nonneg (Int.ofNat_nonneg ms.length) hper
    by_cases hc : min per (n - t) ≤ 0
    · rw [if_pos hc, ih t ht]
      push_cast
      rw [hmul]
      omega
    · rw [if_neg hc]
      have hle : t + min per (n - t) ≤ n := by omega
      rw [List.sum_cons, ih (t + min per (n - t)) hle]
      push_cast
      rw [hmul]
      omega

/-- Every count handed out by the loop is positive and at most the per-model
quota. -/
theorem assignLoop_mem {α : Type} (per n : ℤ) :
    ∀ (ms : List α) (t : ℤ), ∀ c ∈ assignLoop per n ms t, 0 < c ∧ c ≤ per := by
  intro ms
  induction ms with
  | nil => intro t c hc; simp [assignLoop] at hc
  | cons m ms ih =>
    intro t c hc
    simp only [assignLoop] at hc
    by_cases h0 : min per (n - t) ≤ 0
    · rw [if_pos h0] at hc
      exact ih t c hc
    · rw [if_neg h0] at hc
      rcases List.mem_cons.mp hc with h | h
      · subst h
        exact ⟨by omega, min_le_left _ _⟩
      · exact ih (t + min per (n - t)) c h

/-- The quota `⌈n / M⌉` is nonnegative and covers `n`: `n ≤ M * ⌈n / M⌉`. -/
theorem ceil_quota_covers (n : ℤ) (M : ℕ) (hn : 0 ≤ n) (hM : 0 < M) :
    0 ≤ ⌈(n : ℚ) / (M : ℚ)⌉ ∧ n ≤ (M : ℤ) * ⌈(n : ℚ) / (M : ℚ)⌉ := by
  have hMq : (0 : ℚ) < (M : ℚ) := by exact_mod_cast hM
  have h1 : (0 : ℤ) ≤ ⌈(n : ℚ) / (M : ℚ)⌉ :=
    Int.ceil_nonneg (div_nonneg (by exact_mod_cast hn) (le_of_lt hMq))
  refine ⟨h1, ?_⟩
  have h2 : (n : ℚ) / (M : ℚ) ≤ (⌈(n : ℚ) / (M : ℚ)⌉ : ℚ) := Int.le_ceil _
  have h3 : (n : ℚ) ≤ (M : ℚ) * (⌈(n : ℚ) / (M : ℚ)⌉ : ℚ) := by
    rw [div_le_iff₀ hMq] at h2
    linarith [h2]
  exact_mod_cast h3

/-- C2: for every target count `n ≥ 0` and nonempty model list, the partition
uses the quota `perModel = ⌈n / M⌉`, every pushed batch count is positive
(models assigned zero are skipped, so no empty batch exists) and at most
`perModel` (never negative, never over budget), the counts sum to exactly `n`,
and for the spec example n = 48 over 5 models the counts are
[10, 10, 10, 10, 8]. -/
theorem batchCounts_spec {α : Type} (n : ℤ) (models : List α)
    (hn : 0 ≤ n) (hne : models ≠ []) :
    (batchCounts n models).sum = n ∧
    (∀ c ∈ batchCounts n models,
        0 < c ∧ c ≤ ⌈(n : ℚ) / (models.length : ℚ)⌉) ∧
    batchCounts (48 : ℤ) ["a", "b", "c", "d", "e"] = [10, 10, 10, 10, 8] := by
  have hM : 0 < models.length := List.length_pos.mpr hne
  obtain ⟨hper, hcov⟩ := ceil_quota_covers n models.length hn hM
  refine ⟨?_, ?_, ?_⟩
  · have := assignLoop_sum ⌈(n : ℚ) / (models.length : ℚ)⌉ n hper models 0 hn
    rw [batchCounts, this]
    omega
  · intro c hc
    exact assignLoop_mem _ n models 0 c hc
  · have h48 : ⌈(48 : ℚ) / (5 : ℚ)⌉ = (10 : ℤ) := by
      rw [Int.ceil_eq_iff]; norm_num
    norm_num [batchCounts, assignLoop, h48]

/-- Witness for C2 at n = 48 over five models. -/
theorem batchCounts_spec_witness :
    (batchCounts (48 : ℤ) ["a", "b", "c", "d", "e"]).sum = 48 :=
  (batchCounts_spec (48 : ℤ) ["a", "b", "c", "d", "e"] (by norm_num)
    (by simp)).1

/-! ### C3 — recycle step -/

/-- C3: in every frame update, the recycle test is the strict comparison
`position.y < Y_OFFSET - Y_SPREAD/2 - 10` applied to the post-fall position;
on recycle `position.y` becomes `Y_OFFSET + Y_SPREAD/2` and `x`/`z` land in
`[-X_SPREAD/2, X_SPREAD/2]` resp. `[-Z_SPREAD/2, Z_SPREAD/2]`; otherwise the
position continues the fall unchanged in `x`/`z`; in both cases scale,
rotation speeds, `rotation.y`, batch index and slot index are untouched,
`rotation.x`/`rotation.z` carry exactly the fall-step increments, and the
frame update leaves every batch color array unchanged; on the configured
values an object at `y = -309` does not recycle (ending at `-309 - 0.8`)
while an object at `y = -311` recycles to `y = 300`. -/
theorem updateObject_recycle_spec (oc : ObjectConfig) (ac : AnimationConfig)
    (rx rz : ℚ) (rnd : ℕ → ℚ × ℚ) (s : SceneState) (obj o309 o311 : ObjectState)
    (hrx0 : 0 ≤ rx) (hrx1 : rx < 1) (hrz0 : 0 ≤ rz) (hrz1 : rz < 1)
    (hxs : 0 ≤ oc.xSpread) (hzs : 0 ≤ oc.zSpread)
    (h309 : o309.posY = -309) (h311 : o311.posY = -311) :
    (obj.posY - ac.fallSpeed < recycleThreshold oc →
      (updateObject oc ac rx rz obj).posY = oc.yOffset + oc.ySpread / 2 ∧
      -(oc.xSpread / 2) ≤ (updateObject oc ac rx rz obj).posX ∧
      (updateObject oc ac rx rz obj).posX ≤ oc.xSpread / 2 ∧
      -(oc.zSpread / 2) ≤ (updateObject oc ac rx rz obj).posZ ∧
      (updateObject oc ac rx rz obj).posZ ≤ oc.zSpread / 2) ∧
    (¬ obj.posY - ac.fallSpeed < recycleThreshold oc →
      (updateObject oc ac rx rz obj).posY = obj.posY - ac.fallSpeed ∧
      (updateObject oc ac rx rz obj).posX = obj.posX ∧
      (updateObject oc ac rx rz obj).posZ = obj.posZ) ∧
    (updateObject oc ac rx rz obj).scale = obj.scale ∧
    (updateObject oc ac rx rz obj).rotY = obj.rotY ∧
    (updateObject oc ac rx rz obj).rotX
      = obj.rotX + obj.rotationSpeedX * ac.rotationMultiplier ∧
    (updateObject oc ac rx rz obj).rotZ
      = obj.rotZ + obj.rotationSpeedZ * ac.rotationMultiplier ∧
    (updateObject oc ac rx rz obj).rotationSpeedX = obj.rotationSpeedX ∧
    (updateObject oc ac rx rz obj).rotationSpeedZ = obj.rotationSpeedZ ∧
    (updateObject oc ac rx rz obj).meshIndex = obj.meshIndex ∧
    (updateObject oc ac rx rz obj).instanceIndex = obj.instanceIndex ∧
    (animateFrame oc ac rnd s).colorArrays = s.colorArrays ∧
    (updateObject objectConfig animationConfig rx rz o309).posY = -309 - 4/5 ∧
    (updateObject objectConfig animationConfig rx rz o311).posY = 300 := by
  have hx1 : -(oc.xSpread / 2) ≤ (rx - 1/2) * oc.xSpread := by nlinarith
  have hx2 : (rx - 1/2) * oc.xSpread ≤ oc.xSpread / 2 := by nlinarith
  have hz1 : -(oc.zSpread / 2) ≤ (rz - 1/2) * oc.zSpread := by nlinarith
  have hz2 : (rz - 1/2) * oc.zSpread ≤ oc.zSpread / 2 := by nlinarith
  refine ⟨?_, ?_, ?_, ?_, ?_, ?_, ?_, ?_, ?_, ?_, rfl, ?_, ?_⟩ <;>
    simp only [updateObject, recycleThreshold] <;>
    first
      | (intro h; rw [if_pos h]; exact ⟨rfl, hx1, hx2, hz1, hz2⟩)
      | (intro h; rw [if_neg h]; exact ⟨rfl, rfl, rfl⟩)
      | (split <;> rfl)
      | (rw [if_neg (by rw [h309]; norm_num [objectConfig, animationConfig])]
         rw [h309]; norm_num [animationConfig])
      | (rw [if_pos (by rw [h311]; norm_num [objectConfig, animationConfig])]
         norm_num [objectConfig])

/-- Witness for C3: the object at `y = -311` recycles to `y = 300` (and the
non-recycling conjuncts hold at the same concrete input). -/
theorem updateObject_recycle_spec_witness :
    (updateObject objectConfig animationConfig (1/2) (1/2) obj311).posY = 300 :=
  (updateObject_recycle_spec objectConfig animationConfig (1/2) (1/2)
    (fun _ => (0, 0)) scene0 obj0 obj309 obj311
    (by norm_num) (by norm_num) (by norm_num) (by norm_num)
    (by norm_num [objectConfig]) (by norm_num [objectConfig])
    rfl rfl).2.2.2.2.2.2.2.2.2.2.2.2

/-! ### C4 — falling and rotation over several frames -/

/-- When the post-fall position does not cross the recycle threshold, the
frame leaves `position.y` at exactly `position.y - FALL_SPEED`. -/
theorem updateObject_posY_noRecycle (oc : ObjectConfig) (ac : AnimationConfig)
    (rx rz : ℚ) (obj : ObjectState)
    (h : ¬ obj.posY - ac.fallSpeed < recycleThreshold oc) :
    (updateObject oc ac rx rz obj).posY = obj.posY - ac.fallSpeed := by
  simp only [updateObject]
  rw [if_neg h]

/-- Rotation fields and rotation speeds after one frame, recycled or not:
`rotation.x`/`rotation.z` advance by speed times multiplier, `rotation.y` and
the speeds never change. -/
theorem updateObject_rotations (oc : ObjectConfig) (ac : AnimationConfig)
    (rx rz : ℚ) (obj : ObjectState) :
    (updateObject oc ac rx rz obj).rotX
      = obj.rotX + obj.rotationSpeedX * ac.rotationMultiplier ∧
    (updateObject oc ac rx rz obj).rotZ
      = obj.rotZ + obj.rotationSpeedZ * ac.rotationMultiplier ∧
    (updateObject oc ac rx rz obj).rotY = obj.rotY ∧
    (updateObject oc ac rx rz obj).rotationSpeedX = obj.rotationSpeedX ∧
    (updateObject oc ac rx rz obj).rotationSpeedZ = obj.rotationSpeedZ := by
  simp only [updateObject]
  split <;> exact ⟨rfl, rfl, rfl, rfl, rfl⟩

/-- C4: as long as no frame crosses the recycle threshold, `K` frames take
`position.y` to exactly `initial_y - K * FALL_SPEED`; `rotation.x` and
`rotation.z` advance by exactly `K` speed-times-multiplier increments
(these increments, like the invariance of `rotation.y`, do not even need the
no-recycle hypothesis, since recycling touches only the position). -/
theorem stepN_fall_spec (oc : ObjectConfig) (ac : AnimationConfig)
    (rnd : ℕ → ℚ × ℚ) (obj : ObjectState) (K : ℕ)
    (hno : ∀ j < K,
      recycleThreshold oc ≤ (stepN oc ac rnd j obj).posY - ac.fallSpeed) :
    (stepN oc ac rnd K obj).posY = obj.posY - (K : ℚ) * ac.fallSpeed ∧
    (stepN oc ac rnd K obj).rotX
      = obj.rotX + (K : ℚ) * (obj.rotationSpeedX * ac.rotationMultiplier) ∧
    (stepN oc ac rnd K obj).rotZ
      = obj.rotZ + (K : ℚ) * (obj.rotationSpeedZ * ac.rotationMultiplier) ∧
    (stepN oc ac rnd K obj).rotY = obj.rotY := by
  induction K generalizing rnd obj with
  | zero => simp [stepN]
  | succ k ih =>
    have h0 := hno 0 (Nat.succ_pos k)
    simp only [stepN] at h0
    have hposY :=
      updateObject_posY_noRecycle oc ac (rnd 0).1 (rnd 0).2 obj (not_lt.mpr h0)
    obtain ⟨hrX, hrZ, hrY, hsX, hsZ⟩ :=
      updateObject_rotations oc ac (rnd 0).1 (rnd 0).2 obj
    have htrans : ∀ j < k,
        recycleThreshold oc
          ≤ (stepN oc ac (fun i => rnd (i + 1)) j
              (updateObject oc ac (rnd 0).1 (rnd 0).2 obj)).posY
            - ac.fallSpeed :=
      fun j hj => hno (j + 1) (by omega)
    obtain ⟨iY, iX, iZ, iYrot⟩ :=
      ih (fun i => rnd (i + 1)) (updateObject oc ac (rnd 0).1 (rnd 0).2 obj) htrans
    refine ⟨?_, ?_, ?_, ?_⟩
    · show (stepN oc ac (fun i => rnd (i + 1)) k
          (updateObject oc ac (rnd 0).1 (rnd 0).2 obj)).posY = _
      rw [iY, hposY]
      push_cast
      ring
    · show (stepN oc ac (fun i => rnd (i + 1)) k
          (updateObject oc ac (rnd 0).1 (rnd 0).2 obj)).rotX = _
      rw [iX, hrX, hsX]
      push_cast
      ring
    · show (stepN oc ac (fun i => rnd (i + 1)) k
          (updateObject oc ac (rnd 0).1 (rnd 0).2 obj)).rotZ = _
      rw [iZ, hrZ, hsZ]
      push_cast
      ring
    · show (stepN oc ac (fun i => rnd (i + 1)) k
          (updateObject oc ac (rnd 0).1 (rnd 0).2 obj)).rotY = _
      rw [iYrot, hrY]

/-- Witness for C4: `obj0` (at `y = 100`) falls for two frames without
recycling and ends at `100 - 2 * 0.8`. -/
theorem stepN_fall_spec_witness :
    (stepN objectConfig animationConfig (fun _ => (0, 0)) 2 obj0).posY
      = obj0.posY - ((2 : ℕ) : ℚ) * animationConfig.fallSpeed :=
  (stepN_fall_spec objectConfig animationConfig (fun _ => (0, 0)) obj0 2
    (by
      intro j hj
      interval_cases j <;>
        norm_num [stepN, updateObject, recycleThreshold,
          objectConfig, animationConfig, obj0])).1

/-! ### C10 — no object is left below the recycle threshold -/

/-- After any single frame, an object sits at or above the recycle threshold:
either it did not cross it, or it was respawned at the top boundary, which is
above the threshold whenever the vertical spread is nonnegative. -/
theorem updateObject_above_threshold (oc : ObjectConfig) (ac : AnimationConfig)
    (rx rz : ℚ) (obj : ObjectState) (hS : 0 ≤ oc.ySpread) :
    recycleThreshold oc ≤ (updateObject oc ac rx rz obj).posY := by
  simp only [updateObject]
  split
  · simp only [recycleThreshold]
    linarith
  · next h => exact not_lt.mp h

/-- Every object produced by one pass of the frame loop over an object list is
at or above the recycle threshold. -/
theorem animateList_above_threshold (oc : ObjectConfig) (ac : AnimationConfig)
    (hS : 0 ≤ oc.ySpread) :
    ∀ (os : List ObjectState) (rnd : ℕ → ℚ × ℚ),
      ∀ o ∈ animateList oc ac rnd os, recycleThreshold oc ≤ o.posY := by
  intro os
  induction os with
  | nil => intro rnd o h; simp [animateList] at h
  | cons a os ih =>
    intro rnd o h
    simp only [animateList] at h
    rcases List.mem_cons.mp h with h | h
    · subst h
      exact updateObject_above_threshold oc ac _ _ a hS
    · exact ih _ o h

/-- After at least one frame, every object of the scene is at or above the
recycle threshold, whatever the starting scene was. -/
theorem iterFrames_above_threshold (oc : ObjectConfig) (ac : AnimationConfig)
    (hS : 0 ≤ oc.ySpread) :
    ∀ (k : ℕ) (rnds : ℕ → ℕ → ℚ × ℚ) (s : SceneState),
      ∀ o ∈ (iterFrames oc ac rnds (k + 1) s).allObjects,
        recycleThreshold oc ≤ o.posY := by
  intro k
  induction k with
  | zero =>
    intro rnds s o h
    simp only [iterFrames, animateFrame] at h
    exact animateList_above_threshold oc ac hS _ _ o h
  | succ k ih =>
    intro rnds s o h
    exact ih (fun i => rnds (i + 1)) (animateFrame oc ac (rnds 0) s) o h

/-- C10: starting from a scene whose objects were created inside the vertical
band `[Y_OFFSET - Y_SPREAD/2, Y_OFFSET + Y_SPREAD/2]`, after every frame
update (any `K ≥ 1`) every object's `position.y` is at least the recycle
threshold `Y_OFFSET - Y_SPREAD/2 - 10`: an object that dropped below the
threshold during the frame was reset to the top within that same frame. -/
theorem scene_invariant_spec (oc : ObjectConfig) (ac : AnimationConfig)
    (rnds : ℕ → ℕ → ℚ × ℚ) (s : SceneState) (K : ℕ)
    (hS : 0 ≤ oc.ySpread) (hK : 1 ≤ K)
    (hinit : ∀ o ∈ s.allObjects,
      oc.yOffset - oc.ySpread / 2 ≤ o.posY ∧ o.posY ≤ oc.yOffset + oc.ySpread / 2) :
    ∀ o ∈ (iterFrames oc ac rnds K s).allObjects,
      recycleThreshold oc ≤ o.posY := by
  obtain ⟨k, rfl⟩ : ∃ k, K = k + 1 := ⟨K - 1, by omega⟩
  exact iterFrames_above_threshold oc ac hS k rnds s

/-- Witness for C10: one frame on the sample scene leaves its object at or
above the threshold. -/
theorem scene_invariant_spec_witness :
    recycleThreshold objectConfig
      ≤ (updateObject objectConfig animationConfig 0 0 obj0).posY :=
  scene_invariant_spec objectConfig animationConfig (fun _ _ => (0, 0)) scene0 1
    (by norm_num [objectConfig]) (by norm_num)
    (by
      intro o ho
      simp only [scene0, List.mem_singleton] at ho
      subst ho
      norm_num [objectConfig, obj0])
    (updateObject objectConfig animationConfig 0 0 obj0)
    (List.mem_singleton.mpr rfl)

/-! ### C9 — ensure-normals is the identity on geometries with normals -/

/-- C9: the single-mesh ensure-normals step leaves a geometry that already has
a normal attribute completely unchanged (normals and all other attributes). -/
theorem ensureNormals_idempotent (cvn : List ℚ → List ℚ) (g : BufferGeometry)
    (h : g.normal.isSome) : ensureNormals cvn g = g := by
  rcases hn : g.normal with _ | ns
  · rw [hn] at h
    simp at h
  · unfold ensureNormals
    rw [hn]

/-- Witness for C9 on the sample triangle geometry. -/
theorem ensureNormals_idempotent_witness :
    ensureNormals (fun ps => ps) geomTri = geomTri :=
  ensureNormals_idempotent (fun ps => ps) geomTri rfl

/-! ### C5 — merged normals: concatenation versus recomputation -/

/-- C5 (amended behaviour): the merge recomputes normals from the merged
positions only when no input geometry contributes a normal entry; whenever the
accumulated normal concatenation is nonempty — in particular when only some
inputs carry normals — the merged `normal` attribute is exactly that
(possibly partial) concatenation. -/
theorem mergeGeometries_normal_branch (cvn : List ℚ → List ℚ)
    (geoms : List BufferGeometry) :
    ((geoms.filterMap (fun g => g.normal)).flatten ≠ [] →
      (mergeGeometries cvn geoms).normal
        = some ((geoms.filterMap (fun g => g.normal)).flatten)) ∧
    ((geoms.filterMap (fun g => g.normal)).flatten = [] →
      (mergeGeometries cvn geoms).normal
        = some (cvn ((geoms.filterMap (fun g => g.position)).flatten))) := by
  constructor
  · intro h
    simp only [mergeGeometries]
    rw [if_pos (List.length_pos.mpr h)]
  · intro h
    simp only [mergeGeometries]
    rw [h]
    rw [if_neg (by simp)]

/-- Witness for C5: on a geometry with normals merged with one without, the
`normal` attribute is the accumulated concatenation. -/
theorem mergeGeometries_normal_branch_witness :
    (mergeGeometries (fun ps => ps) [geomTri, geomNoNormal]).normal
      = some (([geomTri, geomNoNormal].filterMap (fun g => g.normal)).flatten) :=
  (mergeGeometries_normal_branch (fun ps => ps) [geomTri, geomNoNormal]).1
    (by simp [geomTri, geomNoNormal])

/-- C5 counterexample: merging a 3-vertex geometry that has normals with a
3-vertex geometry that has none yields as `normal` attribute the bare 9-entry
concatenation of the first geometry's normals, although the merged position
array has 18 entries (6 vertices): a partial concatenation, not a
recomputation from the merged position data (under `cvn` = identity a
recomputation would have returned the 18-entry merged position array). -/
theorem mergeGeometries_partial_normals_cex :
    (mergeGeometries (fun ps => ps) [geomTri, geomNoNormal]).normal
        = some [0, 0, 1, 0, 0, 1, 0, 0, 1] ∧
    ((mergeGeometries (fun ps => ps) [geomTri, geomNoNormal]).normal.getD []).length
        = 9 ∧
    ((mergeGeometries (fun ps => ps) [geomTri, geomNoNormal]).position.getD []).length
        = 18 ∧
    (mergeGeometries (fun ps => ps) [geomTri, geomNoNormal]).normal
        ≠ some
            ((mergeGeometries (fun ps => ps) [geomTri, geomNoNormal]).position.getD []) := by
  refine ⟨rfl, rfl, rfl, ?_⟩
  intro h
  have h9 : ((mergeGeometries (fun ps => ps)
      [geomTri, geomNoNormal]).normal.getD []).length = 9 := rfl
  have h18 : ((mergeGeometries (fun ps => ps)
      [geomTri, geomNoNormal]).position.getD []).length = 18 := rfl
  rw [h] at h9
  simp only [Option.getD_some] at h9
  omega

/-! ### C6 — does every produced geometry carry normals? -/

/-- C6 (amended behaviour): with a nonempty geometry list whose members all
carry positions, and a merge that does not fail, the produced geometry exists
and has a normal attribute (single-mesh: computed if missing; merged:
concatenated or recomputed).  The merge-failure fallback is excluded: it
returns the first sub-mesh as-is (see the counterexample). -/
theorem processLoadedGeometries_normals (cvn : List ℚ → List ℚ) (mf : Bool)
    (geoms : List BufferGeometry) (hne : geoms ≠ [])
    (hpos : ∀ g ∈ geoms, g.position.isSome) (hmf : mf = false) :
    (processLoadedGeometries cvn mf geoms).isSome ∧
    ((processLoadedGeometries cvn mf geoms).getD emptyGeometry).normal.isSome := by
  subst hmf
  rcases geoms with _ | ⟨g, gs⟩
  · exact absurd rfl hne
  rcases gs with _ | ⟨g1, rest⟩
  · refine ⟨rfl, ?_⟩
    have hg := hpos g (List.mem_singleton.mpr rfl)
    show (ensureNormals cvn g).normal.isSome
    rcases hn : g.normal with _ | ns
    · rcases hp : g.position with _ | ps
      · rw [hp] at hg
        simp at hg
      · simp [ensureNormals, hn, hp]
    · simp [ensureNormals, hn]
  · exact ⟨rfl, rfl⟩

/-- Witness for C6 (amended) on the two sample geometries. -/
theorem processLoadedGeometries_normals_witness :
    (processLoadedGeometries (fun ps => ps) false [geomTri, geomNoNormal]).isSome :=
  (processLoadedGeometries_normals (fun ps => ps) false [geomTri, geomNoNormal]
    (by simp) (by simp [geomTri, geomNoNormal]) rfl).1

/-- C6 counterexample: when the merge fails, the fallback returns the first
sub-mesh unchanged — the error is indeed not propagated (a geometry is
returned), but when that sub-mesh lacks normals, model acquisition hands out
a geometry with no normal attribute. -/
theorem processLoadedGeometries_fallback_cex :
    processLoadedGeometries (fun ps => ps) true [geomNoNormal, geomTri]
        = some geomNoNormal ∧
    geomNoNormal.normal = none :=
  ⟨rfl, rfl⟩

/-! ### C7 — verbatim concatenation and the bounding volume -/

/-- An element of a list is at most the `foldr max` of the list over any
base. -/
theorem le_foldr_max (x b : ℚ) (l : List ℚ) (hx : x ∈ l) : x ≤ l.foldr max b := by
  induction l with
  | nil => cases hx
  | cons a l ih =>
    rcases List.mem_cons.mp hx with h | h
    · subst h
      exact le_max_left _ _
    · exact le_trans (ih h) (le_max_right _ _)

/-- The computed bounding sphere encloses every vertex: the squared distance
from the centre to any grouped position is at most the stored squared
radius. -/
theorem computeBoundingSphere_encloses (ps : List ℚ) (bs : Sphere)
    (h : computeBoundingSphere ps = some bs) :
    ∀ v ∈ toVec3s ps, sqDist v (bs.centerX, bs.centerY, bs.centerZ) ≤ bs.radiusSq := by
  unfold computeBoundingSphere at h
  rcases hms : toVec3s ps with _ | ⟨p, rest⟩
  · rw [hms] at h
    cases h
  · rw [hms] at h
    injection h with h'
    subst h'
    intro v hv
    show sqDist v (bboxCenter p rest) ≤ maxSqDist (bboxCenter p rest) (p :: rest)
    exact le_foldr_max _ _ _ (List.mem_map_of_mem _ hv)

/-- On at least three coordinates the grouped vertex list is nonempty, so a
bounding sphere is produced. -/
theorem computeBoundingSphere_isSome (ps : List ℚ) (h3 : 3 ≤ ps.length) :
    (computeBoundingSphere ps).isSome := by
  rcases ps with _ | ⟨a, ps⟩
  · simp at h3
  rcases ps with _ | ⟨b, ps⟩
  · simp at h3
  rcases ps with _ | ⟨c, ps⟩
  · simp at h3
  simp [computeBoundingSphere, toVec3s]

/-- When every input geometry carries a position attribute, accumulating the
present position arrays is just collecting all of them in order. -/
theorem filterMap_position_total :
    ∀ (geoms : List BufferGeometry), (∀ g ∈ geoms, g.position.isSome) →
      geoms.filterMap (fun g => g.position)
        = geoms.map (fun g => g.position.getD []) := by
  intro geoms
  induction geoms with
  | nil => intro _; rfl
  | cons g gs ih =>
    intro h
    have hg := h g (List.mem_cons_self g gs)
    rcases hp : g.position with _ | ps
    · rw [hp] at hg
      simp at hg
    · simp [List.filterMap_cons, hp,
        ih (fun x hx => h x (List.mem_cons_of_mem _ hx))]

/-- C7: merging concatenates the position arrays verbatim in input order (no
vertex transformation, no deduplication): whenever all inputs carry
positions, the merged position array is the in-order concatenation of theirs;
and merging a 3-vertex with a 4-vertex geometry (each carrying position,
normal and uv) yields the 21-entry concatenated position array (7 vertices),
the concatenated normal and uv arrays, and a recomputed bounding sphere
enclosing all 7 vertex positions. -/
theorem mergeGeometries_concat_spec (cvn : List ℚ → List ℚ)
    (geoms : List BufferGeometry) (g1 g2 : BufferGeometry)
    (p1 n1 u1 p2 n2 u2 : List ℚ)
    (hall : ∀ g ∈ geoms, g.position.isSome)
    (hg1 : g1 = { position := some p1, normal := some n1, uv := some u1,
                  boundingSphere := none })
    (hg2 : g2 = { position := some p2, normal := some n2, uv := some u2,
                  boundingSphere := none })
    (hp1 : p1.length = 9) (hp2 : p2.length = 12)
    (hn1 : n1 ≠ []) (hu1 : u1 ≠ []) :
    (mergeGeometries cvn geoms).position
        = some ((geoms.map (fun g => g.position.getD [])).flatten) ∧
    (mergeGeometries cvn [g1, g2]).position = some (p1 ++ p2) ∧
    vertexCount (mergeGeometries cvn [g1, g2]) = 7 ∧
    (mergeGeometries cvn [g1, g2]).normal = some (n1 ++ n2) ∧
    (mergeGeometries cvn [g1, g2]).uv = some (u1 ++ u2) ∧
    (mergeGeometries cvn [g1, g2]).boundingSphere.isSome ∧
    (∀ bs : Sphere, (mergeGeometries cvn [g1, g2]).boundingSphere = some bs →
      ∀ v ∈ toVec3s (p1 ++ p2),
        sqDist v (bs.centerX, bs.centerY, bs.centerZ) ≤ bs.radiusSq) := by
  subst hg1 hg2
  refine ⟨?_, ?_, ?_, ?_, ?_, ?_, ?_⟩
  · simp only [mergeGeometries]
    rw [filterMap_position_total geoms hall]
  · simp [mergeGeometries, List.filterMap_cons]
  · simp only [vertexCount, mergeGeometries, List.filterMap_cons,
      List.flatten, Option.getD_some]
    simp [List.length_append, hp1, hp2]
  · simp only [mergeGeometries, List.filterMap_cons]
    rw [if_pos]
    · simp
    · simp only [List.filterMap_nil, List.flatten_cons, List.flatten_nil,
        List.append_nil]
      simp [List.length_pos, hn1]
  · simp only [mergeGeometries, List.filterMap_cons]
    rw [if_pos]
    · simp
    · simp only [List.filterMap_nil, List.flatten_cons, List.flatten_nil,
        List.append_nil]
      simp [List.length_pos, hu1]
  · simp only [mergeGeometries, List.filterMap_cons]
    apply computeBoundingSphere_isSome
    simp [hp1, hp2]
  · intro bs hbs v hv
    simp only [mergeGeometries, List.filterMap_cons, List.filterMap_nil,
      List.flatten_cons, List.flatten_nil, List.append_nil] at hbs
    exact computeBoundingSphere_encloses (p1 ++ p2) bs hbs v hv

/-- Witness for C7 on the sample 3-vertex and 4-vertex geometries. -/
theorem mergeGeometries_concat_spec_witness :
    (mergeGeometries (fun ps => ps) [geomTri, geomQuad]).position
      = some ([0, 0, 0, 1, 0, 0, 0, 1, 0] ++ [2, 0, 0, 3, 0, 0, 3, 1, 0, 2, 1, 0]) :=
  (mergeGeometries_concat_spec (fun ps => ps) [geomTri, geomQuad] geomTri geomQuad
    [0, 0, 0, 1, 0, 0, 0, 1, 0] [0, 0, 1, 0, 0, 1, 0, 0, 1] [0, 0, 1, 0, 0, 1]
    [2, 0, 0, 3, 0, 0, 3, 1, 0, 2, 1, 0] [0, 0, 1, 0, 0, 1, 0, 0, 1, 0, 0, 1]
    [0, 0, 1, 0, 1, 1, 0, 1]
    (by simp [geomTri, geomQuad]) rfl rfl rfl rfl (by simp) (by simp)).2.1

/-! ### C8 — per-model failure isolation and the zero-model guard -/

/-- C8: a failing model load drops exactly that model — loading a path list
containing a failing path gives the same result as the list without it (other
models are unaffected and the join is not aborted); every returned pair stems
from a path whose load succeeded and whose geometries processed successfully;
and when every load fails, acquisition returns the empty list and scene
initialization builds no batch. -/
theorem loadAllModels_failure_spec (cvn : List ℚ → List ℚ)
    (fetch : String → Option (List BufferGeometry))
    (mergeFails : String → Bool)
    (paths pre post : List String) (p : String) (n : ℤ) :
    (fetch p = none →
      loadAllModels cvn fetch mergeFails (pre ++ p :: post)
        = loadAllModels cvn fetch mergeFails (pre ++ post)) ∧
    (∀ pr ∈ loadAllModels cvn fetch mergeFails paths,
      pr.1 ∈ paths ∧ ∃ geoms, fetch pr.1 = some geoms ∧
        processLoadedGeometries cvn (mergeFails pr.1) geoms = some pr.2) ∧
    ((∀ q ∈ paths, fetch q = none) →
      loadAllModels cvn fetch mergeFails paths = [] ∧
      initScene n (loadAllModels cvn fetch mergeFails paths) = []) := by
  refine ⟨?_, ?_, ?_⟩
  · intro hp
    unfold loadAllModels
    rw [List.filterMap_append, List.filterMap_append, List.filterMap_cons]
    simp [hp]
  · intro pr hpr
    rw [loadAllModels, List.mem_filterMap] at hpr
    obtain ⟨q, hq, hfq⟩ := hpr
    rcases hfetch : fetch q with _ | geoms
    · rw [hfetch] at hfq
      cases hfq
    · rw [hfetch] at hfq
      have hfq2 : Option.map (fun g => (q, g))
          (processLoadedGeometries cvn (mergeFails q) geoms) = some pr := hfq
      rcases hproc : processLoadedGeometries cvn (mergeFails q) geoms with _ | g
      · rw [hproc] at hfq2
        cases hfq2
      · rw [hproc] at hfq2
        simp only [Option.map_some', Option.some.injEq] at hfq2
        subst hfq2
        exact ⟨hq, geoms, hfetch, by rw [hproc]⟩
  · intro hall
    have hempty : loadAllModels cvn fetch mergeFails paths = [] := by
      unfold loadAllModels
      rw [List.filterMap_eq_nil_iff]
      intro q hq
      rw [hall q hq]
    refine ⟨hempty, ?_⟩
    rw [hempty]
    rfl

/-- Witness for C8: with every load failing, acquisition over the fallback
model path returns nothing. -/
theorem loadAllModels_failure_spec_witness :
    loadAllModels (fun ps => ps) (fun _ => none) (fun _ => false)
        ["models/dd.glb"] = [] :=
  ((loadAllModels_failure_spec (fun ps => ps) (fun _ => none) (fun _ => false)
    ["models/dd.glb"] [] [] "unused" 48).2.2 (fun _ _ => rfl)).1

end Falling3D
